import Mathlib

/-!
Verification of the stream-to-frame demultiplexer and transport lifecycle of
an AMQP 0-9-1 socket client (src/amqp-socket-client.mjs).

The read callback installed by connectSocket keeps three pieces of mutable
state across socket reads: framePos, frameSize and a 16384-byte scratch
frameBuffer.  Each read event delivers (bytesWritten, buf) where buf is the
fixed 128 KiB onread buffer whose prefix of length bytesWritten was freshly
written; the rest of buf keeps whatever earlier reads left there.

Byte buffers are embedded as a size together with a total contents function;
bytes are natural numbers (values below 256 for real inputs).  Node's
Buffer.prototype.copy clamps the copied count by the target capacity, the
requested source range and the source capacity; it does not know about
bytesWritten, which matters for the partial-header continuation at line 69
of the source.
-/

/-- Byte buffer: a fixed size plus a total contents function. -/
structure Buf where
  size : Nat
  data : Nat → Nat

/-- One socket read: the chunk overwrites the prefix of the persistent onread
buffer, positions past the chunk keep their previous contents. -/
def writeChunk (b : Buf) (c : List Nat) : Buf :=
  ⟨b.size, fun j => c.getD j (b.data j)⟩

/-- Node Buffer.copy(target, targetStart, sourceStart, sourceEnd): copies
min(target capacity left, requested range, source capacity left) bytes and
returns the count; a non-positive requested range copies nothing. -/
def bufCopy (src dst : Buf) (dstStart srcStart : Nat) (srcEnd : Int) : Nat × Buf :=
  let n : Int := min (min ((dst.size : Int) - (dstStart : Int)) (srcEnd - (srcStart : Int)))
      ((src.size : Int) - (srcStart : Int))
  (n.toNat,
   ⟨dst.size, fun j =>
      if dstStart ≤ j ∧ j < dstStart + n.toNat then src.data (srcStart + (j - dstStart))
      else dst.data j⟩)

/-- Node Buffer.readInt32BE: big-endian 32-bit read, signed two's complement. -/
def readInt32BE (b : Buf) (off : Nat) : Int :=
  let u : Nat := b.data off * 16777216 + b.data (off + 1) * 65536 +
      b.data (off + 2) * 256 + b.data (off + 3)
  if u < 2147483648 then (u : Int) else (u : Int) - 4294967296

/-- Frame size computed by the callback from a 7-byte header starting at pos:
readInt32BE at byte offset pos+3, plus 8 (lines 73 and 84 of the source). -/
def headerFrameSize (b : Buf) (pos : Nat) : Int :=
  readInt32BE b (pos + 3) + 8

/-- Read len bytes of a buffer starting at off, as a list. -/
def extract (b : Buf) (off len : Nat) : List Nat :=
  (List.range len).map fun i => b.data (off + i)

/-- AMQPView/DataView construction over (buffer, byteOffset, byteLength):
a negative length or a view past the end of the buffer throws a RangeError. -/
def mkView (b : Buf) (off : Nat) (len : Int) : Option (List Nat) :=
  if len < 0 ∨ (off : Int) + len > (b.size : Int) then none
  else some (extract b off len.toNat)

/-- Reassembly state owned by connectSocket: framePos, frameSize (a JS number
that the signed 32-bit read can make zero or negative, hence Int) and the
scratch frameBuffer. -/
structure DState where
  framePos : Nat
  frameSize : Int
  frameBuffer : Buf

/-- Result of one iteration of the callback's while loop: fall through or
continue to the next iteration, break out of the loop, or throw. -/
inductive LoopRes where
  | next (st : DState) (bufPos : Nat) (out : List (List Nat))
  | stop (st : DState)
  | fail

/-- Lines 96-106 of the source: the copy-accumulate (slow) path.  Copies
min(frameSize - framePos, bytesWritten - bufPos) bytes of the chunk into the
scratch buffer, throws if the copy moved nothing, and dispatches a view over
frameBuffer[0:frameSize] when the frame is complete, resetting the state. -/
def slowPath (bytesWritten : Nat) (buf : Buf) (st : DState) (bufPos : Nat) : LoopRes :=
  let copyBytes : Int := min (st.frameSize - (st.framePos : Int))
      ((bytesWritten : Int) - (bufPos : Int))
  let r := bufCopy buf st.frameBuffer st.framePos bufPos ((bufPos : Int) + copyBytes)
  if r.1 = 0 then .fail
  else if ((st.framePos + r.1 : Nat) : Int) = st.frameSize then
    match mkView r.2 0 st.frameSize with
    | none => .fail
    | some f => .next ⟨0, 0, r.2⟩ (bufPos + r.1) [f]
  else .next ⟨st.framePos + r.1, st.frameSize, r.2⟩ (bufPos + r.1) []

/-- Lines 64-107 of the source: one iteration of the while loop of the read
callback.  Header acquisition when frameSize = 0 (partial-header continuation
at lines 68-75, buffering of a short tail at lines 77-82, direct decode and
zero-copy dispatch at lines 84-93), otherwise the slow path. -/
def loopBody (bytesWritten : Nat) (buf : Buf) (st : DState) (bufPos : Nat) : LoopRes :=
  if st.frameSize = 0 then
    if st.framePos ≠ 0 then
      -- lines 69-74: finish the split header; the source end of the copy is
      -- bufPos + 7 - framePos regardless of bytesWritten, and frameSize is
      -- decoded immediately after the copy.
      match bufCopy buf st.frameBuffer st.framePos bufPos
          ((bufPos : Int) + 7 - (st.framePos : Int)) with
      | (copied, fb) =>
        if copied = 0 then .fail
        else .next ⟨st.framePos + copied, headerFrameSize fb 0, fb⟩ (bufPos + copied) []
    else if bytesWritten < bufPos + 7 then
      -- lines 77-82: fewer than 7 bytes left in the chunk, buffer them.
      match bufCopy buf st.frameBuffer st.framePos bufPos (bytesWritten : Int) with
      | (copied, fb) =>
        if copied = 0 then .fail
        else .stop ⟨st.framePos + copied, st.frameSize, fb⟩
    else
      -- line 84: decode the frame size straight from the chunk.
      let fs := headerFrameSize buf bufPos
      if (bytesWritten : Int) - (bufPos : Int) ≥ fs then
        -- lines 87-93: zero-copy fast path.
        match mkView buf bufPos fs with
        | none => .fail
        | some f => .next ⟨0, 0, st.frameBuffer⟩ (bufPos + fs.toNat) [f]
      else slowPath bytesWritten buf ⟨st.framePos, fs, st.frameBuffer⟩ bufPos
  else slowPath bytesWritten buf st bufPos

/-- Outcome of a whole read callback run: normal return, a thrown error, or
fuel exhaustion (the loop did not finish within the given fuel). -/
inductive RunRes where
  | ok (st : DState) (out : List (List Nat))
  | thrown (out : List (List Nat))
  | fuelOut

/-- The while loop of the read callback, with fuel. -/
def runLoop : Nat → Nat → Buf → DState → Nat → List (List Nat) → RunRes
  | 0, _, _, _, _, _ => .fuelOut
  | fuel + 1, bytesWritten, buf, st, bufPos, out =>
    if bufPos < bytesWritten then
      match loopBody bytesWritten buf st bufPos with
      | .next st' bufPos' o => runLoop fuel bytesWritten buf st' bufPos' (out ++ o)
      | .stop st' => .ok st' out
      | .fail => .thrown out
    else .ok st out

/-- Outcome of feeding a sequence of chunks through the callback. -/
inductive ChunksRes where
  | done (st : DState) (out : List (List Nat))
  | thrown (out : List (List Nat))
  | fuelOut

/-- Feed chunks one read event at a time: each chunk overwrites the prefix of
the persistent onread buffer and the callback runs with bytesWritten equal to
the chunk length. -/
def runChunks (fuel : Nat) : Buf → DState → List (List Nat) → List (List Nat) → ChunksRes
  | _, st, out, [] => .done st out
  | sock, st, out, c :: cs =>
    match runLoop fuel c.length (writeChunk sock c) st 0 [] with
    | .ok st' o => runChunks fuel (writeChunk sock c) st' (out ++ o) cs
    | .thrown o => .thrown (out ++ o)
    | .fuelOut => .fuelOut

/-- Observable part of a normal run: final framePos, final frameSize, and the
frames dispatched to parseFrames, in order. -/
def obsChunks : ChunksRes → Option (Nat × Int × List (List Nat))
  | .done st out => some (st.framePos, st.frameSize, out)
  | _ => none

/-- Observable part of an aborted run: frames dispatched before the throw. -/
def obsThrown : ChunksRes → Option (List (List Nat))
  | .thrown out => some out
  | _ => none

/-- The onread buffer: allocated with size 128 * 1024 at line 60; contents are
arbitrary at start, taken as all zeroes for the concrete executions here. -/
def sock0 : Buf := ⟨128 * 1024, fun _ => 0⟩

/-- The scratch buffer: allocated with size 16384 at line 53, zeroed here. -/
def fb0 : Buf := ⟨16384, fun _ => 0⟩

/-- Initial reassembly state: framePos = 0, frameSize = 0 (lines 51-52). -/
def st0 : DState := ⟨0, 0, fb0⟩

/-- A valid 16-byte frame: type 1, channel 1, payload length 8, end marker 206. -/
def frameA : List Nat := [1, 0, 1, 0, 0, 0, 8, 10, 11, 12, 13, 14, 15, 16, 17, 206]

/-- A valid 16-byte frame: type 1, channel 2, payload length 8, end marker 206. -/
def frameB : List Nat := [1, 0, 2, 0, 0, 0, 8, 20, 21, 22, 23, 24, 25, 26, 27, 206]

/-- The stream frameA ++ frameB split as 16, 1, 1 and 14 bytes: the second
frame's header is split over three reads. -/
def chunksC1 : List (List Nat) := [frameA, [1], [0], frameB.drop 2]

/-- The first three chunks of chunksC1: after them, exactly 2 header bytes of
the second frame have arrived. -/
def chunksC2 : List (List Nat) := [frameA, [1], [0]]

/-- A valid 16-byte frame whose payload carries the bytes 255, 255, 255, 248
at payload offsets 3 to 6: type 1, channel 1, payload length 8, end 206. -/
def frameD : List Nat := [1, 0, 1, 0, 0, 0, 8, 9, 7, 6, 255, 255, 255, 248, 5, 206]

/-- A prefix of the valid stream frameD ++ (next frame starting 1, 0, ...),
split as 8, 8, 1 and 1 bytes: frameD split mid-payload, then the next header
delivered one byte at a time.  After the second chunk the onread buffer keeps
frameD's payload bytes 255, 255, 255, 248 at positions 2 to 5. -/
def chunksC6 : List (List Nat) := [frameD.take 8, frameD.drop 8, [1], [0]]

/-- One more byte of the same valid stream after chunksC6. -/
def chunksC7 : List (List Nat) := chunksC6 ++ [[0]]

/-- The onread buffer after a single 7-byte read whose header carries
payload-length field 0xFFFFFFF8, so the decoded frame size is -8 + 8 = 0. -/
def c4Buf : Buf := writeChunk sock0 [1, 0, 1, 255, 255, 255, 248]

/-- Number of bytes the slow path copies in one iteration:
min(frameSize - framePos, bytesWritten - bufPos). -/
def copyAmount (bytesWritten : Nat) (st : DState) (bufPos : Nat) : Nat :=
  (min (st.frameSize - (st.framePos : Int)) ((bytesWritten : Int) - (bufPos : Int))).toNat

/-- The scratch buffer after one slow-path copy. -/
def scratchAfter (bytesWritten : Nat) (buf : Buf) (st : DState) (bufPos : Nat) : Buf :=
  (bufCopy buf st.frameBuffer st.framePos bufPos
    ((bufPos : Int) + min (st.frameSize - (st.framePos : Int))
      ((bytesWritten : Int) - (bufPos : Int)))).2

/-- An AMQPError wraps the message of the underlying socket error (line 42). -/
structure AMQPErr where
  message : String
deriving DecidableEq

/-- A JS promise is pending until it is settled; settling is a one-time
transition enforced by the promise runtime. -/
inductive PromiseState where
  | pending
  | resolvedOk
  | rejectedErr (e : AMQPErr)
deriving DecidableEq

/-- Resolving a promise: a no-op unless it is still pending. -/
def resolveOnce : PromiseState → PromiseState
  | .pending => .resolvedOk
  | s => s

/-- Rejecting a promise: a no-op unless it is still pending. -/
def rejectOnce (e : AMQPErr) : PromiseState → PromiseState
  | .pending => .rejectedErr e
  | s => s

/-- Events that can reach the connect promise of a connection: socket error
events, and completion of the protocol handshake. -/
inductive ConnEvent where
  | sockError (msg : String)
  | handshakeComplete
deriving DecidableEq

/-- State observable around the connect promise: the promise itself and the
ongoing-session error channel of the protocol engine (the list of errors that
were surfaced to it). -/
structure ConnState where
  p : PromiseState
  errCh : List AMQPErr
deriving DecidableEq

/-- Effect of one event.  A socket error runs the handler registered at line
42 of the source, which only rejects the connect promise with the wrapped
error and never touches the session error channel.  Modelled from the spec:
handshakeComplete stands for the external protocol engine resolving the
pending connect continuation when the handshake finishes (that code lives in
amqp-base-client.mjs, outside src/). -/
def handleEvent (st : ConnState) : ConnEvent → ConnState
  | .sockError msg => ⟨rejectOnce ⟨msg⟩ st.p, st.errCh⟩
  | .handshakeComplete => ⟨resolveOnce st.p, st.errCh⟩

/-- Fold a sequence of events over the connection state. -/
def runEvents (st : ConnState) : List ConnEvent → ConnState
  | [] => st
  | e :: es => runEvents (handleEvent st e) es

/-- Connection object: configuration from the constructor plus the socket
handle, which is null until connect() has been called (line 28). -/
structure Connection where
  host : String
  port : Nat
  tlsOn : Bool
  socket : Option Nat
deriving DecidableEq

/-- Outcome of send(bytes) as observable at this layer: either the write was
handed to the socket (its promise settles later through the write callback),
or the promise was rejected synchronously. -/
inductive SendOutcome where
  | enqueued (bytes : List Nat)
  | rejectedWith (reason : String)
deriving DecidableEq

/-- Lines 123-130 of the source: send(bytes) writes to the socket when one
exists, otherwise rejects the returned promise with "Socket not connected".
No branch throws, and the connection object is not modified. -/
def send (c : Connection) (bytes : List Nat) : SendOutcome × Connection :=
  match c.socket with
  | some _ => (.enqueued bytes, c)
  | none => (.rejectedWith "Socket not connected", c)

/-- Outcome of closeSocket(): nothing, or a write-side shutdown request.  The
source returns undefined either way (no future). -/
inductive CloseOutcome where
  | noSocket
  | endCalled
deriving DecidableEq

/-- Lines 135-137 of the source: closeSocket() calls socket.end() when a
socket exists and does nothing otherwise; the connection is not modified. -/
def closeSocket (c : Connection) : CloseOutcome × Connection :=
  match c.socket with
  | some _ => (.endCalled, c)
  | none => (.noSocket, c)

/-- A connection as built by the constructor, before connect() was called. -/
def connNoSock : Connection := ⟨"localhost", 5672, false, none⟩

/-- The same connection after connect() installed a socket handle. -/
def connWithSock : Connection := ⟨"localhost", 5672, false, some 1⟩

/-- Copied count of Buffer.copy when the requested range fits both buffers. -/
theorem bufCopy_fst (src dst : Buf) (ds ss : Nat) (se : Int)
    (h1 : se - (ss : Int) ≤ (dst.size : Int) - (ds : Int))
    (h2 : se - (ss : Int) ≤ (src.size : Int) - (ss : Int)) :
    (bufCopy src dst ds ss se).1 = (se - (ss : Int)).toNat := by
  simp only [bufCopy]
  omega

/-- Claim C1: for every valid frame stream split at arbitrary chunk
boundaries, exactly N byte-identical frames are dispatched.  FALSE: the valid
two-frame stream frameA ++ frameB, split as 16, 1, 1 and 14 bytes (the second
header split over three reads), dispatches only frameA; after the third chunk
the callback has read 5 bytes beyond bytesWritten (line 69 limits the copy by
7 - framePos, not by the chunk) and decoded frameSize = 16777224 from those
stale bytes, so frameB is never recognised. -/
theorem c1_failing_eval :
    chunksC1.flatten = frameA ++ frameB ∧
    obsChunks (runChunks 100 sock0 st0 [] chunksC1) = some (21, 16777224, [frameA]) := by
  decide

/-- Claim C2: with a partial header buffered, the callback copies only the
remaining needed header bytes that the chunk actually holds and decodes
frameSize only once 7 real header bytes are available.  FALSE: after the
chunks 16, 1, 1 of the stream frameA ++ frameB only two header bytes of
frameB have arrived, yet the state already has framePos = 7 and a decoded
frameSize = 16777224, taken from bytes of the onread buffer beyond
bytesWritten. -/
theorem c2_failing_eval :
    chunksC2.flatten = frameA ++ frameB.take 2 ∧
    obsChunks (runChunks 100 sock0 st0 [] chunksC2) = some (7, 16777224, [frameA]) := by
  decide

/-- Claim C3: one slow-path iteration copies exactly
min(frameSize - framePos, bytesWritten - bufPos) bytes into the scratch
buffer at offset framePos, advances framePos and bufPos by that count, and
when framePos reaches frameSize dispatches frameBuffer[0:frameSize] and
resets the state to (0, 0).  Holds whenever the frame under construction is
incomplete, fits the scratch capacity, and the cursor is inside the chunk. -/
theorem c3_slow_path (bytesWritten : Nat) (buf : Buf) (st : DState) (bufPos : Nat)
    (hpos : (st.framePos : Int) < st.frameSize)
    (hcap : st.frameSize ≤ (st.frameBuffer.size : Int))
    (hbp : bufPos < bytesWritten)
    (hbw : bytesWritten ≤ buf.size) :
    0 < copyAmount bytesWritten st bufPos ∧
    (((st.framePos + copyAmount bytesWritten st bufPos : Nat) : Int) = st.frameSize →
      slowPath bytesWritten buf st bufPos =
        LoopRes.next ⟨0, 0, scratchAfter bytesWritten buf st bufPos⟩
          (bufPos + copyAmount bytesWritten st bufPos)
          [extract (scratchAfter bytesWritten buf st bufPos) 0 st.frameSize.toNat]) ∧
    (((st.framePos + copyAmount bytesWritten st bufPos : Nat) : Int) ≠ st.frameSize →
      slowPath bytesWritten buf st bufPos =
        LoopRes.next ⟨st.framePos + copyAmount bytesWritten st bufPos, st.frameSize,
            scratchAfter bytesWritten buf st bufPos⟩
          (bufPos + copyAmount bytesWritten st bufPos) []) := by
  have hA : (bufCopy buf st.frameBuffer st.framePos bufPos
      ((bufPos : Int) + min (st.frameSize - (st.framePos : Int))
        ((bytesWritten : Int) - (bufPos : Int)))).1 = copyAmount bytesWritten st bufPos := by
    simp only [bufCopy, copyAmount]
    omega
  have hB : scratchAfter bytesWritten buf st bufPos =
      (bufCopy buf st.frameBuffer st.framePos bufPos
        ((bufPos : Int) + min (st.frameSize - (st.framePos : Int))
          ((bytesWritten : Int) - (bufPos : Int)))).2 := rfl
  have hk : 0 < copyAmount bytesWritten st bufPos := by
    simp only [copyAmount]
    omega
  have hsz : (scratchAfter bytesWritten buf st bufPos).size = st.frameBuffer.size := rfl
  refine ⟨hk, ?_, ?_⟩
  · intro h
    simp only [slowPath]
    rw [hA, ← hB, if_neg (by omega), if_pos h]
    simp only [mkView, hsz]
    rw [if_neg (by omega)]
  · intro h
    simp only [slowPath]
    rw [hA, ← hB, if_neg (by omega), if_neg h]

/-- Witness for C3 at concrete inputs: frameSize 10, framePos 3, a 5-byte
chunk with the cursor at 1, so 4 bytes are copied and the frame stays
incomplete. -/
theorem c3_slow_path_witness :
    0 < copyAmount 5 ⟨3, 10, fb0⟩ 1 ∧
    slowPath 5 ⟨131072, fun _ => 7⟩ ⟨3, 10, fb0⟩ 1 =
      LoopRes.next ⟨3 + copyAmount 5 ⟨3, 10, fb0⟩ 1, 10,
          scratchAfter 5 ⟨131072, fun _ => 7⟩ ⟨3, 10, fb0⟩ 1⟩
        (1 + copyAmount 5 ⟨3, 10, fb0⟩ 1) [] := by
  have h := c3_slow_path 5 ⟨131072, fun _ => 7⟩ ⟨3, 10, fb0⟩ 1
    (by decide) (by decide) (by decide) (by decide)
  exact ⟨h.1, h.2.2 (by decide)⟩

/-- Claim C4: the while loop terminates for every chunk and buffer contents.
FALSE: a 7-byte chunk whose header carries payload-length field 0xFFFFFFF8
decodes frameSize = readInt32BE + 8 = -8 + 8 = 0 at line 84; the fast path
then dispatches an empty view and advances bufPos by 0, so the loop
re-processes the same position forever: the run is fuelOut for every fuel. -/
theorem c4_failing_eval :
    ∀ fuel out, runLoop fuel 7 c4Buf st0 0 out = RunRes.fuelOut := by
  intro fuel
  induction fuel with
  | zero => intro out; rfl
  | succ k ih =>
    intro out
    have hstep : runLoop (k + 1) 7 c4Buf st0 0 out =
        runLoop k 7 c4Buf st0 0 (out ++ [[]]) := rfl
    rw [hstep]
    exact ih (out ++ [[]])

/-- Claim C5 (amended): the computed total frame size equals the big-endian
payload length at header offset 3 plus 8 for every payload length below
2^31; the source reads the field with the signed readInt32BE, so larger
values wrap.  Here the four bytes at offsets pos+3 .. pos+6 encode L. -/
theorem c5_theorem (b : Buf) (pos L : Nat) (hL : L < 2147483648)
    (h0 : b.data (pos + 3) = L / 16777216)
    (h1 : b.data (pos + 4) = L / 65536 % 256)
    (h2 : b.data (pos + 5) = L / 256 % 256)
    (h3 : b.data (pos + 6) = L % 256) :
    headerFrameSize b pos = (L : Int) + 8 := by
  simp only [headerFrameSize, readInt32BE]
  rw [show pos + 3 + 1 = pos + 4 by omega, show pos + 3 + 2 = pos + 5 by omega,
    show pos + 3 + 3 = pos + 6 by omega, h0, h1, h2, h3]
  have hu : L / 16777216 * 16777216 + L / 65536 % 256 * 65536 +
      L / 256 % 256 * 256 + L % 256 = L := by omega
  rw [hu, if_pos hL]

/-- Witness for C5: a header whose payload-length field encodes 8 yields a
total frame size of 16. -/
theorem c5_theorem_witness :
    headerFrameSize ⟨16384, fun j => if j = 6 then 8 else 0⟩ 0 = (8 : Int) + 8 :=
  c5_theorem ⟨16384, fun j => if j = 6 then 8 else 0⟩ 0 8 (by decide)
    (by decide) (by decide) (by decide) (by decide)

/-- Counterexample for C5 as stated: for the 4-byte-representable payload
length 2^31 = 2147483648 (header bytes 128, 0, 0, 0 at offsets 3 to 6), the
signed read makes the computed size -2147483640 instead of 2^31 + 8. -/
theorem c5_counterexample :
    headerFrameSize ⟨131072, fun j => if j = 3 then 128 else 0⟩ 0 = -2147483640 ∧
    headerFrameSize ⟨131072, fun j => if j = 3 then 128 else 0⟩ 0 ≠
      (2147483648 : Int) + 8 := by
  decide

/-- Claim C6: at every exit of the read callback, frameSize > 0 implies
framePos ≤ frameSize, and frameSize = 0 implies framePos is between 0 and 6;
after each dispatched frame the state is (0, 0).  FALSE: the valid stream
frameD ++ (a frame starting 1, 0), split as 8, 8, 1 and 1 bytes, exits the
fourth read with framePos = 7 and frameSize = 0: the line 69 copy takes 5
stale bytes past bytesWritten, among them frameD's payload bytes 255, 255,
255, 248, and the payload-length field then decodes to -8, so frameSize
becomes -8 + 8 = 0 while 7 header bytes sit buffered. -/
theorem c6_failing_eval :
    chunksC6.flatten = frameD ++ [1, 0] ∧
    obsChunks (runChunks 100 sock0 st0 [] chunksC6) = some (7, 0, [frameD]) := by
  decide

/-- Claim C7: on a valid stream, however split, no "Copied 0 bytes" guard is
ever reached.  FALSE: the valid stream of chunksC6 plus one more 1-byte chunk
reaches the guard at line 70: the fourth read left framePos = 7 with
frameSize = 0 (see c6_failing_eval), so the fifth read's header-continuation
copy requests the empty range bufPos .. bufPos + 7 - 7, moves 0 bytes, and
the callback throws after having dispatched only frameD.  The second half of
the claim does hold there: the callback aborts rather than spinning. -/
theorem c7_failing_eval :
    chunksC7.flatten = frameD ++ [1, 0, 0] ∧
    obsThrown (runChunks 100 sock0 st0 [] chunksC7) = some [frameD] := by
  decide

/-- Claim C8 (amended): the connect promise settles at most once: events
never touch an already settled promise; a socket error while it is pending
rejects it with the wrapped AMQPError; and late errors are dropped by this
layer (the handler at line 42 only rejects, it never routes anything to the
ongoing-session error channel). -/
theorem c8_theorem (evs : List ConnEvent) (st : ConnState) (m : String) :
    (runEvents st evs).errCh = st.errCh ∧
    (st.p ≠ PromiseState.pending → (runEvents st evs).p = st.p) ∧
    runEvents ⟨PromiseState.pending, st.errCh⟩ (ConnEvent.sockError m :: evs) =
      runEvents ⟨PromiseState.rejectedErr ⟨m⟩, st.errCh⟩ evs := by
  induction evs generalizing st with
  | nil =>
    refine ⟨rfl, fun _ => rfl, rfl⟩
  | cons e es ih =>
    refine ⟨?_, ?_, ?_⟩
    · have h1 : (handleEvent st e).errCh = st.errCh := by
        cases e <;> rfl
      calc (runEvents st (e :: es)).errCh
          = (runEvents (handleEvent st e) es).errCh := rfl
        _ = (handleEvent st e).errCh := (ih (handleEvent st e)).1
        _ = st.errCh := h1
    · intro hp
      have h1 : handleEvent st e = st := by
        cases e with
        | sockError msg =>
          cases hsp : st.p with
          | pending => exact absurd hsp hp
          | resolvedOk =>
            simp only [handleEvent, hsp, rejectOnce]
            cases st; simp_all
          | rejectedErr err =>
            simp only [handleEvent, hsp, rejectOnce]
            cases st; simp_all
        | handshakeComplete =>
          cases hsp : st.p with
          | pending => exact absurd hsp hp
          | resolvedOk =>
            simp only [handleEvent, hsp, resolveOnce]
            cases st; simp_all
          | rejectedErr err =>
            simp only [handleEvent, hsp, resolveOnce]
            cases st; simp_all
      show (runEvents (handleEvent st e) es).p = st.p
      rw [h1]
      exact (ih st).2.1 hp
    · rfl

/-- Witness for C8: a settled (resolved) promise stays resolved across a
later socket error, nothing reaches the error channel, and an error on a
pending promise rejects it with the wrapped message. -/
theorem c8_theorem_witness :
    (runEvents ⟨PromiseState.resolvedOk, []⟩ [ConnEvent.sockError "reset"]).errCh = [] ∧
    (runEvents ⟨PromiseState.resolvedOk, []⟩ [ConnEvent.sockError "reset"]).p =
      PromiseState.resolvedOk ∧
    runEvents ⟨PromiseState.pending, []⟩ (ConnEvent.sockError "reset" :: []) =
      runEvents ⟨PromiseState.rejectedErr ⟨"reset"⟩, []⟩ [] := by
  have h := c8_theorem [ConnEvent.sockError "reset"] ⟨PromiseState.resolvedOk, []⟩ "x"
  have h2 := c8_theorem [] ⟨PromiseState.resolvedOk, []⟩ "reset"
  exact ⟨h.1, h.2.1 (by decide), h2.2.2⟩

/-- Counterexample for C8 as stated: an error event after the handshake has
resolved the promise is not routed to the ongoing-session error channel; the
final state keeps the promise resolved and an empty error channel. -/
theorem c8_counterexample :
    (runEvents ⟨PromiseState.pending, []⟩
      [ConnEvent.handshakeComplete, ConnEvent.sockError "reset"]).p =
        PromiseState.resolvedOk ∧
    (runEvents ⟨PromiseState.pending, []⟩
      [ConnEvent.handshakeComplete, ConnEvent.sockError "reset"]).errCh = [] := by
  decide

/-- Claim C9: send(bytes) before any socket exists rejects the returned
promise with "Socket not connected"; nothing is thrown (both branches of the
executor settle the promise) and the connection object is unchanged. -/
theorem c9_theorem (c : Connection) (bytes : List Nat) (h : c.socket = none) :
    send c bytes = (SendOutcome.rejectedWith "Socket not connected", c) := by
  simp only [send, h]

/-- Witness for C9 at a concrete connection with no socket. -/
theorem c9_theorem_witness :
    send connNoSock [65, 77, 81, 80] =
      (SendOutcome.rejectedWith "Socket not connected", connNoSock) :=
  c9_theorem connNoSock [65, 77, 81, 80] rfl

/-- Claim C10: closeSocket() with no socket is a no-op that returns normally
and leaves the connection unchanged; with a socket it only requests the
write-side shutdown (socket.end()) and returns no future, again leaving the
connection unchanged. -/
theorem c10_theorem (c : Connection) :
    (c.socket = none → closeSocket c = (CloseOutcome.noSocket, c)) ∧
    (∀ s, c.socket = some s → closeSocket c = (CloseOutcome.endCalled, c)) ∧
    (closeSocket c).2 = c := by
  refine ⟨fun h => by simp only [closeSocket, h], fun s h => by simp only [closeSocket, h], ?_⟩
  cases h : c.socket <;> simp only [closeSocket, h]

/-- Witness for C10 at concrete connections with and without a socket. -/
theorem c10_theorem_witness :
    closeSocket connNoSock = (CloseOutcome.noSocket, connNoSock) ∧
    closeSocket connWithSock = (CloseOutcome.endCalled, connWithSock) :=
  ⟨(c10_theorem connNoSock).1 rfl, (c10_theorem connWithSock).2.1 1 rfl⟩
